import Mathlib

/-!
Shallow embedding of the nameko-devex API gateway
(`src/gateway/gateway/service.py` and `src/gateway/gateway/schemas.py`).

The two backend services (products, orders) are external collaborators
reached over RPC; the gateway code is parameterised over their behaviour,
which we model as a `Backend` record of pure functions.  Remote calls the
gateway issues are recorded in a trace of `Call` values so that claims of
the form "the create operation is never invoked" can be stated.
-/

/-- A product record, as defined by `CreateProductSchema` in
`schemas.py` (fields id, title, maximum_speed, in_stock,
passenger_capacity). -/
structure Product where
  id : String
  title : String
  maximum_speed : Int
  in_stock : Int
  passenger_capacity : Int
deriving Repr, DecidableEq

/-- An exact decimal number in the style of Python's `decimal.Decimal`:
sign, coefficient (a natural number, leading zeros already dropped, as in
`Decimal`'s coefficient digit tuple) and a power-of-ten exponent.  The
value denoted is `(-1)^neg * coeff * 10^exp`. -/
structure Dec where
  neg : Bool
  coeff : Nat
  exp : Int
deriving Repr, DecidableEq

/-- Digits of a character list interpreted as a natural number. -/
def digitsToNat (cs : List Char) : Nat :=
  cs.foldl (fun acc c => acc * 10 + (c.toNat - 48)) 0

/-- Surrounding whitespace removal on a character list (`Decimal` accepts
and strips leading and trailing whitespace). -/
def trimChars (cs : List Char) : List Char :=
  ((cs.dropWhile Char.isWhitespace).reverse.dropWhile Char.isWhitespace).reverse

/-- Parsing of a decimal string, as `decimal.Decimal(str)` does for the
finite, non-exponent forms used by the gateway's payloads: optional sign,
digits, optional fractional part.  (Exponent notation and the special
values NaN/Infinity are outside the payload shapes this service
exchanges and are not modelled: such strings parse to `none`.) -/
def parseDec (s : String) : Option Dec :=
  let cs := trimChars s.data
  let signed : Bool × List Char :=
    match cs with
    | '-' :: rest => (true, rest)
    | '+' :: rest => (false, rest)
    | _ => (false, cs)
  let parts := signed.2.splitOn '.'
  match parts with
  | [intPart] =>
    if intPart ≠ [] ∧ intPart.all Char.isDigit then
      some ⟨signed.1, digitsToNat intPart, 0⟩
    else none
  | [intPart, fracPart] =>
    if (intPart ++ fracPart) ≠ [] ∧ (intPart ++ fracPart).all Char.isDigit then
      some ⟨signed.1, digitsToNat (intPart ++ fracPart), -(fracPart.length : Int)⟩
    else none
  | _ => none

/-- Rendering of a decimal, following `decimal.Decimal.__str__` for finite
values: plain notation when `exp ≤ 0` and the leading digit sits no further
than six places right of the point, scientific notation otherwise. -/
def renderDec (d : Dec) : String :=
  let digits := toString d.coeff
  let leftdigits : Int := d.exp + digits.length
  let sign := if d.neg then "-" else ""
  if d.exp ≤ 0 ∧ leftdigits > -6 then
    if d.exp = 0 then
      sign ++ digits
    else if leftdigits > 0 then
      sign ++ digits.take leftdigits.toNat ++ "." ++ digits.drop leftdigits.toNat
    else
      sign ++ "0." ++ String.mk (List.replicate (-leftdigits).toNat '0') ++ digits
  else
    let e := leftdigits - 1
    let mant :=
      if digits.length = 1 then digits
      else digits.take 1 ++ "." ++ digits.drop 1
    sign ++ mant ++ "E" ++ (if e ≥ 0 then "+" ++ toString e else toString e)

/-- A loaded order line, the result of `CreateOrderDetailSchema` loading
an input line: `product_id` string, `price` an exact decimal
(`fields.Decimal(as_string=True)`), `quantity` an integer. -/
structure CreateOrderDetail where
  product_id : String
  price : Dec
  quantity : Int
deriving Repr, DecidableEq

/-- A loaded order-creation payload (`CreateOrderSchema`): the
`order_details` collection. -/
structure CreateOrderData where
  order_details : List CreateOrderDetail
deriving Repr, DecidableEq

/-- An order line on the wire: the JSON shape posted by clients and the
shape sent to the orders backend, with `price` as the exact decimal
string. -/
structure CreateOrderDetailWire where
  product_id : String
  price : String
  quantity : Int
deriving Repr, DecidableEq

/-- `CreateOrderDetailSchema` load of one wire line: the price string is
parsed to an exact decimal; a string that is not a valid decimal fails
validation. -/
def CreateOrderDetailSchema_load (w : CreateOrderDetailWire) : Option CreateOrderDetail :=
  (parseDec w.price).map fun d => ⟨w.product_id, d, w.quantity⟩

/-- `CreateOrderSchema` load of the posted `order_details` collection. -/
def CreateOrderSchema_load (ws : List CreateOrderDetailWire) : Option CreateOrderData :=
  (ws.mapM CreateOrderDetailSchema_load).map CreateOrderData.mk

/-- `CreateOrderDetailSchema` dump of one loaded line: the decimal price
is serialized back to its exact string form (`as_string=True`). -/
def CreateOrderDetailSchema_dump (d : CreateOrderDetail) : CreateOrderDetailWire :=
  ⟨d.product_id, renderDec d.price, d.quantity⟩

/-- `CreateOrderSchema().dump(order_data)`: the `order_details` list with
each line serialized. -/
def CreateOrderSchema_dump (o : CreateOrderData) : List CreateOrderDetailWire :=
  o.order_details.map CreateOrderDetailSchema_dump

/-- An order line as held by the orders backend and as enriched by the
gateway: `product` and `image` are absent (`none`) on the raw backend
record and filled in by `_get_order`'s enrichment loop. -/
structure DetailRecord where
  id : Int
  product_id : String
  price : String
  quantity : Int
  product : Option Product
  image : Option String
deriving Repr, DecidableEq

/-- An order as returned by the orders backend (and, after enrichment,
as passed to serialization): backend-assigned `id` plus line items. -/
structure OrderRecord where
  id : Int
  order_details : List DetailRecord
deriving Repr, DecidableEq

/-- One remote call issued by the gateway, recorded for trace-based
properties (which backend operation, with which arguments/result). -/
inductive Call where
  | productsExists (product_id : String) (result : Bool)
  | ordersCreateOrder (order_details : List CreateOrderDetailWire) (assigned_id : Int)
  | ordersListOrders (page : Int) (per_page : Int)
deriving Repr, DecidableEq

/-- Errors surfaced by the gateway handlers: the mapped remote
`OrderNotFound` / `ProductNotFound` exceptions, Python's `ValueError`
from `int(...)` on a non-integer string, and `decimal.InvalidOperation`
from serializing a non-decimal price string. -/
inductive GatewayError where
  | orderNotFound (order_id : Int)
  | productNotFound (message : String)
  | valueError
  | invalidOperation
deriving Repr, DecidableEq

/-- The behaviour of the two backend services, as seen through their RPC
interface: `products.exists`, `products.get`, `orders.get_order`,
`orders.create_order` (returning the assigned id) and
`orders.list_orders`.  `products.get` returns `none` when the remote
call raises `ProductNotFound`. -/
structure Backend where
  productsExists : String → Bool
  productsGet : String → Option Product
  ordersGetOrder : Int → Option OrderRecord
  ordersCreateOrder : List CreateOrderDetailWire → Int
  ordersListOrders : Int → Int → List OrderRecord

/-- The product-validation loop at the top of `_create_order`: walk the
order lines in order, issuing one `products.exists` call per line, and
stop at the first line whose product does not exist, reporting its
product id.  Returns the calls issued and the offending id, if any. -/
def check_order_products (b : Backend) : List CreateOrderDetail → List Call × Option String
  | [] => ([], none)
  | item :: rest =>
    let r := b.productsExists item.product_id
    if r then
      let tail := check_order_products b rest
      (Call.productsExists item.product_id r :: tail.1, tail.2)
    else
      ([Call.productsExists item.product_id r], some item.product_id)

/-- `GatewayService._create_order`: validate every line's product id via
`products.exists`, raising `ProductNotFound("Product Id {id}")` on the
first missing one; otherwise dump the payload through
`CreateOrderSchema` and issue a single `orders.create_order` call,
returning the backend-assigned id.  The first component is the trace of
remote calls issued. -/
def _create_order (b : Backend) (order_data : CreateOrderData) :
    List Call × Except GatewayError Int :=
  match check_order_products b order_data.order_details with
  | (calls, some pid) =>
    (calls, Except.error (GatewayError.productNotFound ("Product Id " ++ pid)))
  | (calls, none) =>
    let serialized_details := CreateOrderSchema_dump order_data
    let id_ := b.ordersCreateOrder serialized_details
    (calls ++ [Call.ordersCreateOrder serialized_details id_], Except.ok id_)

/-- The enrichment loop of `_get_order`: for each line item in order,
fetch the product (`products.get`, propagating `ProductNotFound` when the
product no longer exists) and set `product` to the fetched record and
`image` to `image_root ++ "/" ++ product_id ++ ".jpg"`. -/
def enrich_details (b : Backend) (image_root : String) :
    List DetailRecord → Except GatewayError (List DetailRecord)
  | [] => Except.ok []
  | item :: rest =>
    match b.productsGet item.product_id with
    | none => Except.error (GatewayError.productNotFound item.product_id)
    | some p =>
      match enrich_details b image_root rest with
      | Except.error e => Except.error e
      | Except.ok ds =>
        Except.ok ({ item with
          product := some p,
          image := some (image_root ++ "/" ++ item.product_id ++ ".jpg") } :: ds)

/-- `GatewayService._get_order`: fetch the order (the remote exception
maps to `OrderNotFound`), then enrich every line item with the product
record and derived image URL. -/
def _get_order (b : Backend) (image_root : String) (order_id : Int) :
    Except GatewayError OrderRecord :=
  match b.ordersGetOrder order_id with
  | none => Except.error (GatewayError.orderNotFound order_id)
  | some order =>
    match enrich_details b image_root order.order_details with
    | Except.error e => Except.error e
    | Except.ok ds => Except.ok { order with order_details := ds }

/-- A serialized (dumped) order line, as `GetOrderSchema.OrderDetail`
produces it: `price` is re-serialized through the decimal field as an
exact string, `product` is the nested `CreateProductSchema` dump (absent
when the attribute is missing), `image` likewise. -/
structure DumpedDetail where
  id : Int
  quantity : Int
  product_id : String
  image : Option String
  price : String
  product : Option Product
deriving Repr, DecidableEq

/-- A serialized order: `id` and the dumped `order_details`. -/
structure DumpedOrder where
  id : Int
  order_details : List DumpedDetail
deriving Repr, DecidableEq

/-- `GetOrderSchema.OrderDetail` dump of one line item; fails
(`decimal.InvalidOperation`) when the price string is not a valid
decimal. -/
def GetOrderDetailSchema_dump (d : DetailRecord) : Option DumpedDetail :=
  (parseDec d.price).map fun dec =>
    ⟨d.id, d.quantity, d.product_id, d.image, renderDec dec, d.product⟩

/-- Field-level `GetOrderSchema` dump of one order (before the
`post_dump` hook runs). -/
def GetOrderSchema_dump_fields (o : OrderRecord) : Option DumpedOrder :=
  (o.order_details.mapM GetOrderDetailSchema_dump).map fun ds => ⟨o.id, ds⟩

/-- The data handed to the `post_dump` hook: a single dumped order
(`many=False`) or a list of them (`many=True`). -/
inductive DumpedData where
  | one (o : DumpedOrder)
  | many (os : List DumpedOrder)
deriving Repr, DecidableEq

/-- Python `len` of the dumped data: the length of the list in the
`many` case (for a single dumped dict it would be the dict's key count,
2: `id` and `order_details`). -/
def pyLen : DumpedData → Nat
  | DumpedData.one _ => 2
  | DumpedData.many os => os.length

/-- The externally visible serialized response: either the data as-is
(no wrapping) or the count/data wrapper record. -/
inductive SerializedOrders where
  | bare (d : DumpedData)
  | wrapped (count : Nat) (data : DumpedData)
deriving Repr, DecidableEq

/-- The `wrap_with_count` `post_dump` hook of `GetOrderSchema`: when
`many` is set, wrap the data in a record with `count = len(data)` and
`data` the collection itself; otherwise return the data unchanged. -/
def wrap_with_count (data : DumpedData) (many : Bool) : SerializedOrders :=
  if many then SerializedOrders.wrapped (pyLen data) data
  else SerializedOrders.bare data

/-- `GetOrderSchema().dumps(order)`: field dump of a single order, then
the `post_dump` hook with `many = false`. -/
def GetOrderSchema_dumps (o : OrderRecord) : Option SerializedOrders :=
  (GetOrderSchema_dump_fields o).map fun d => wrap_with_count (DumpedData.one d) false

/-- `GetOrderSchema(many=True).dumps(orders)`: field dump of each order,
then the `post_dump` hook with `many = true`. -/
def GetOrderSchema_dumps_many (os : List OrderRecord) : Option SerializedOrders :=
  (os.mapM GetOrderSchema_dump_fields).map fun ds =>
    wrap_with_count (DumpedData.many ds) true

/-- `GatewayService.get_order`, the HTTP handler: `_get_order` then
serialization of the enriched order through `GetOrderSchema()`. -/
def get_order (b : Backend) (image_root : String) (order_id : Int) :
    Except GatewayError SerializedOrders :=
  match _get_order b image_root order_id with
  | Except.error e => Except.error e
  | Except.ok order =>
    match GetOrderSchema_dumps order with
    | none => Except.error GatewayError.invalidOperation
    | some r => Except.ok r

/-- Python `int(s)` on a string: optional surrounding whitespace,
optional sign, then decimal digits; anything else raises `ValueError`
(modelled as `none`). -/
def pyIntOfString (s : String) : Option Int :=
  let cs := trimChars s.data
  let signed : Bool × List Char :=
    match cs with
    | '-' :: rest => (true, rest)
    | '+' :: rest => (false, rest)
    | _ => (false, cs)
  if signed.2 ≠ [] ∧ signed.2.all Char.isDigit then
    some (if signed.1 then -(digitsToNat signed.2 : Int) else (digitsToNat signed.2 : Int))
  else none

/-- `int(request.args.get(name, default))`: the fixed integer default
when the query parameter is absent, otherwise Python `int` parsing of
the supplied string (which fails on non-integer input). -/
def argIntDefault (arg : Option String) (default : Int) : Option Int :=
  match arg with
  | none => some default
  | some s => pyIntOfString s

/-- The serialized body `list_orders` produces once the page arguments
have been parsed: the backend's order list dumped through
`GetOrderSchema(many=True)` (failing if some stored price string is not
a valid decimal). -/
def list_orders_body (b : Backend) (page per_page : Int) :
    Except GatewayError SerializedOrders :=
  match GetOrderSchema_dumps_many (b.ordersListOrders page per_page) with
  | none => Except.error GatewayError.invalidOperation
  | some r => Except.ok r

/-- `GatewayService.list_orders`: parse `p` (default 1) and `per_page`
(default 10) from the query string via Python `int` — a non-integer
value raises `ValueError` before any backend call — then issue one
`orders.list_orders` call and serialize its result with the count/data
wrapper.  The first component is the trace of remote calls issued. -/
def list_orders (b : Backend) (p per_page : Option String) :
    List Call × Except GatewayError SerializedOrders :=
  match argIntDefault p 1 with
  | none => ([], Except.error GatewayError.valueError)
  | some page =>
    match argIntDefault per_page 10 with
    | none => ([], Except.error GatewayError.valueError)
    | some size =>
      ([Call.ordersListOrders page size], list_orders_body b page size)

/-- The result of `UpdateProductSchema` loading a PATCH body: every
field is optional with `missing=None`, so an absent field loads as
`none`. -/
structure UpdateProductData where
  title : Option String
  maximum_speed : Option Int
  in_stock : Option Int
  passenger_capacity : Option Int
deriving Repr, DecidableEq

/-- What `UpdateProductSchema(strict=True).loads` produces for the body
holding only a `title` field: the title, every other field `None`. -/
def onlyTitle (t : String) : UpdateProductData :=
  ⟨some t, none, none, none⟩

/-- Application of the supplied (non-`None`) update fields to a product
record, leaving every other field unchanged. -/
def applyUpdate (p : Product) (d : UpdateProductData) : Product :=
  { p with
    title := d.title.getD p.title,
    maximum_speed := d.maximum_speed.getD p.maximum_speed,
    in_stock := d.in_stock.getD p.in_stock,
    passenger_capacity := d.passenger_capacity.getD p.passenger_capacity }

/-- Modelled from the spec: the products backend's `update(id, data)`
operation, whose code is not part of the gateway sources.  Per the spec,
updating with a subset of fields leaves all other fields unchanged and
fails with `ProductNotFound` when no product has the given id.  The
backend's catalog is modelled as a list of products. -/
def products_update (store : List Product) (product_id : String)
    (d : UpdateProductData) : Except GatewayError (List Product) :=
  if store.any fun p => p.id = product_id then
    Except.ok (store.map fun p => if p.id = product_id then applyUpdate p d else p)
  else
    Except.error (GatewayError.productNotFound product_id)

/-- `GatewayService.update_product`: load the PATCH body through
`UpdateProductSchema` (optional fields, `missing=None`) and forward the
loaded data to `products.update` for the routed product id. -/
def update_product (store : List Product) (product_id : String)
    (d : UpdateProductData) : Except GatewayError (List Product) :=
  products_update store product_id d

/-- Modelled from the spec: the orders backend's storage.  It holds the
orders created so far and the next id it will assign; `create_order`
assigns that id, stores the submitted lines (giving each line its index
as line id), and `get_order` returns a stored order by id. -/
structure OrdersStore where
  nextId : Int
  saved : List (Int × List DetailRecord)
deriving Repr, DecidableEq

/-- Modelled from the spec: the orders backend's `create_order`
operation; returns the updated store and the assigned order id. -/
def OrdersStore.create (s : OrdersStore) (lines : List CreateOrderDetailWire) :
    OrdersStore × Int :=
  let details := lines.enum.map fun ie =>
    DetailRecord.mk (ie.1 : Int) ie.2.product_id ie.2.price ie.2.quantity none none
  (⟨s.nextId + 1, (s.nextId, details) :: s.saved⟩, s.nextId)

/-- Modelled from the spec: the orders backend's `get_order` operation:
look the order up by id, `none` when absent (the remote call then raises
the not-found error). -/
def OrdersStore.getOrder (s : OrdersStore) (order_id : Int) : Option OrderRecord :=
  (s.saved.lookup order_id).map fun ds => ⟨order_id, ds⟩

/-- Modelled from the spec: the orders backend's `list_orders` paged
listing (page numbers start at 1). -/
def OrdersStore.listOrders (s : OrdersStore) (page size : Int) : List OrderRecord :=
  (((s.saved.map fun e => OrderRecord.mk e.1 e.2).drop
    (((page - 1) * size).toNat)).take size.toNat)

/-- Modelled from the spec: a full backend built from a product catalog
(a list of products, driving `exists` and `get`) and an orders store. -/
def mkBackend (products : List Product) (s : OrdersStore) : Backend :=
  { productsExists := fun pid => products.any fun p => p.id = pid,
    productsGet := fun pid => products.find? fun p => p.id = pid,
    ordersGetOrder := fun oid => s.getOrder oid,
    ordersCreateOrder := fun lines => (s.create lines).2,
    ordersListOrders := fun page size => s.listOrders page size }

/-- Sample catalog entry used by witnesses. -/
def sampleProduct : Product :=
  ⟨"p1", "The Odyssey", 5, 10, 101⟩

/-- Sample orders store holding one order (id 1) with one "p1" line. -/
def sampleStore : OrdersStore :=
  ⟨2, [(1, [DetailRecord.mk 1 "p1" "9.99" 2 none none])]⟩

/-- Sample backend used by witnesses: one product, one stored order. -/
def sampleBackend : Backend :=
  mkBackend [sampleProduct] sampleStore

/-- Does a trace entry record an `orders.create_order` invocation? -/
def Call.isCreate : Call → Bool
  | Call.ordersCreateOrder _ _ => true
  | _ => false

theorem check_order_products_all_exist (b : Backend) (l : List CreateOrderDetail)
    (h : ∀ item ∈ l, b.productsExists item.product_id = true) :
    check_order_products b l =
      (l.map fun item => Call.productsExists item.product_id true, none) := by
  induction l with
  | nil => rfl
  | cons item rest ih =>
    have h1 := h item (List.mem_cons_self item rest)
    simp [check_order_products, h1, ih fun x hx => h x (List.mem_cons_of_mem _ hx)]

theorem check_order_products_missing (b : Backend) (l : List CreateOrderDetail)
    (h : ∃ item ∈ l, b.productsExists item.product_id = false) :
    ∃ calls pid, check_order_products b l = (calls, some pid) ∧
      (∃ item ∈ l, item.product_id = pid ∧ b.productsExists pid = false) ∧
      ∀ c ∈ calls, ∃ q r, c = Call.productsExists q r := by
  induction l with
  | nil => simp at h
  | cons item rest ih =>
    by_cases hr : b.productsExists item.product_id = true
    · have hrest : ∃ x ∈ rest, b.productsExists x.product_id = false := by
        obtain ⟨x, hx, hfx⟩ := h
        rcases List.mem_cons.mp hx with hfeq | hx'
        · subst hfeq; rw [hr] at hfx; cases hfx
        · exact ⟨x, hx', hfx⟩
      obtain ⟨calls, pid, hc, hpid, hcalls⟩ := ih hrest
      refine ⟨Call.productsExists item.product_id true :: calls, pid, ?_, ?_, ?_⟩
      · simp [check_order_products, hr, hc]
      · obtain ⟨x, hx, h1, h2⟩ := hpid
        exact ⟨x, List.mem_cons_of_mem _ hx, h1, h2⟩
      · intro c hcmem
        rcases List.mem_cons.mp hcmem with hfeq | hcm
        · exact ⟨_, _, hfeq⟩
        · exact hcalls c hcm
    · have hr' : b.productsExists item.product_id = false := by
        simpa using hr
      refine ⟨[Call.productsExists item.product_id false], item.product_id,
        by simp [check_order_products, hr'], ⟨item, List.mem_cons_self item rest, rfl, hr'⟩, ?_⟩
      intro c hcmem
      rcases List.mem_cons.mp hcmem with hfeq | hcm
      · exact ⟨_, _, hfeq⟩
      · cases hcm

/-- C1: for every order-creation request containing at least one line
whose product id does not exist according to the products existence
check, `_create_order` raises `ProductNotFound` with a message naming
the offending product id, and no `orders.create_order` call appears in
the trace (no order is created). -/
theorem create_order_missing_product (b : Backend) (od : CreateOrderData)
    (h : ∃ item ∈ od.order_details, b.productsExists item.product_id = false) :
    ∃ pid, (∃ item ∈ od.order_details, item.product_id = pid ∧
        b.productsExists pid = false) ∧
      (_create_order b od).2 =
        Except.error (GatewayError.productNotFound ("Product Id " ++ pid)) ∧
      ∀ lines id_, Call.ordersCreateOrder lines id_ ∉ (_create_order b od).1 := by
  obtain ⟨calls, pid, hc, hpid, hcalls⟩ := check_order_products_missing b od.order_details h
  refine ⟨pid, hpid, by simp [_create_order, hc], ?_⟩
  intro lines id_ hmem
  rw [show (_create_order b od).1 = calls by simp [_create_order, hc]] at hmem
  obtain ⟨q, r, hqr⟩ := hcalls _ hmem
  cases hqr

/-- Order data whose single line references a product absent from the
sample catalog. -/
def ghostOrder : CreateOrderData :=
  ⟨[⟨"ghost", ⟨false, 999, -2⟩, 1⟩]⟩

/-- Witness for C1 at a concrete backend and payload. -/
theorem create_order_missing_product_witness :
    ∃ pid, (∃ item ∈ ghostOrder.order_details, item.product_id = pid ∧
        sampleBackend.productsExists pid = false) ∧
      (_create_order sampleBackend ghostOrder).2 =
        Except.error (GatewayError.productNotFound ("Product Id " ++ pid)) ∧
      ∀ lines id_,
        Call.ordersCreateOrder lines id_ ∉ (_create_order sampleBackend ghostOrder).1 :=
  create_order_missing_product sampleBackend ghostOrder (by decide)

/-- C2: when every line's product id passes the existence check,
`_create_order` issues exactly one `orders.create_order` call, passing
the full serialized line-item list, and returns the id assigned by that
call. -/
theorem create_order_all_exist (b : Backend) (od : CreateOrderData)
    (h : ∀ item ∈ od.order_details, b.productsExists item.product_id = true) :
    (_create_order b od).1.filter Call.isCreate =
      [Call.ordersCreateOrder (CreateOrderSchema_dump od)
        (b.ordersCreateOrder (CreateOrderSchema_dump od))] ∧
    (_create_order b od).2 = Except.ok (b.ordersCreateOrder (CreateOrderSchema_dump od)) := by
  have hc := check_order_products_all_exist b od.order_details h
  constructor
  · simp [_create_order, hc, List.filter_append, Call.isCreate, List.filter_eq_nil_iff]
  · simp [_create_order, hc]

/-- Order data with a single line referencing the sample product. -/
def p1Order : CreateOrderData :=
  ⟨[⟨"p1", ⟨false, 999, -2⟩, 2⟩]⟩

/-- Witness for C2 at a concrete backend and payload. -/
theorem create_order_all_exist_witness :
    (_create_order sampleBackend p1Order).1.filter Call.isCreate =
      [Call.ordersCreateOrder (CreateOrderSchema_dump p1Order)
        (sampleBackend.ordersCreateOrder (CreateOrderSchema_dump p1Order))] ∧
    (_create_order sampleBackend p1Order).2 =
      Except.ok (sampleBackend.ordersCreateOrder (CreateOrderSchema_dump p1Order)) :=
  create_order_all_exist sampleBackend p1Order (by decide)

/-- C7: an order-creation request with an empty `order_details`
collection succeeds: no existence check is issued, exactly one
`orders.create_order` call is made with the empty line list, and (in
the spec-modelled orders store) the created order has zero lines. -/
theorem create_order_empty_details (b : Backend) :
    _create_order b ⟨[]⟩ =
      ([Call.ordersCreateOrder [] (b.ordersCreateOrder [])],
        Except.ok (b.ordersCreateOrder [])) ∧
    ∀ s : OrdersStore, (OrdersStore.getOrder (s.create []).1 s.nextId) =
      some ⟨s.nextId, []⟩ := by
  constructor
  · rfl
  · intro s
    simp [OrdersStore.create, OrdersStore.getOrder, List.lookup]

theorem enrich_details_ok (b : Backend) (root : String) (l : List DetailRecord)
    (h : ∀ item ∈ l, (b.productsGet item.product_id).isSome) :
    enrich_details b root l = Except.ok (l.map fun item =>
      { item with product := b.productsGet item.product_id,
                  image := some (root ++ "/" ++ item.product_id ++ ".jpg") }) := by
  induction l with
  | nil => rfl
  | cons item rest ih =>
    obtain ⟨p, hp⟩ := Option.isSome_iff_exists.mp (h item (List.mem_cons_self item rest))
    simp [enrich_details, hp, ih fun x hx => h x (List.mem_cons_of_mem _ hx)]

theorem enrich_details_missing (b : Backend) (root : String) (l : List DetailRecord)
    (h : ∃ item ∈ l, b.productsGet item.product_id = none) :
    ∃ pid, (∃ item ∈ l, item.product_id = pid ∧ b.productsGet pid = none) ∧
      enrich_details b root l = Except.error (GatewayError.productNotFound pid) := by
  induction l with
  | nil => simp at h
  | cons item rest ih =>
    cases hl : b.productsGet item.product_id with
    | none =>
      exact ⟨item.product_id, ⟨item, List.mem_cons_self item rest, rfl, hl⟩,
        by simp [enrich_details, hl]⟩
    | some p =>
      have hrest : ∃ x ∈ rest, b.productsGet x.product_id = none := by
        obtain ⟨x, hx, hfx⟩ := h
        rcases List.mem_cons.mp hx with hfeq | hx'
        · subst hfeq; rw [hl] at hfx; cases hfx
        · exact ⟨x, hx', hfx⟩
      obtain ⟨pid, hpid, herr⟩ := ih hrest
      refine ⟨pid, ?_, by simp [enrich_details, hl, herr]⟩
      obtain ⟨x, hx, h1, h2⟩ := hpid
      exact ⟨x, List.mem_cons_of_mem _ hx, h1, h2⟩

/-- C3: when the order is found and every per-line product lookup
succeeds, `_get_order` returns the order with each line's `product`
field equal to the products-get result for that line's product id and
`image` equal to the configured root, `/`, the product id, `.jpg`. -/
theorem get_order_enrichment (b : Backend) (root : String) (oid : Int)
    (order : OrderRecord) (ho : b.ordersGetOrder oid = some order)
    (hp : ∀ item ∈ order.order_details, (b.productsGet item.product_id).isSome) :
    _get_order b root oid = Except.ok ⟨order.id, order.order_details.map fun item =>
      { item with product := b.productsGet item.product_id,
                  image := some (root ++ "/" ++ item.product_id ++ ".jpg") }⟩ := by
  simp [_get_order, ho, enrich_details_ok b root order.order_details hp]

/-- The raw order stored in `sampleStore` under id 1. -/
def sampleOrderRecord : OrderRecord :=
  ⟨1, [DetailRecord.mk 1 "p1" "9.99" 2 none none]⟩

/-- Witness for C3 at a concrete backend and order. -/
theorem get_order_enrichment_witness :
    _get_order sampleBackend "http://img" 1 =
      Except.ok ⟨sampleOrderRecord.id, sampleOrderRecord.order_details.map fun item =>
        { item with product := sampleBackend.productsGet item.product_id,
                    image := some ("http://img" ++ "/" ++ item.product_id ++ ".jpg") }⟩ :=
  get_order_enrichment sampleBackend "http://img" 1 sampleOrderRecord (by decide) (by decide)

/-- C4: when the order is found but some line's product lookup fails
because the product no longer exists, the whole retrieval fails with a
`ProductNotFound` error naming such a product id — no partially
enriched order is returned. -/
theorem get_order_missing_product_fails (b : Backend) (root : String) (oid : Int)
    (order : OrderRecord) (ho : b.ordersGetOrder oid = some order)
    (hp : ∃ item ∈ order.order_details, b.productsGet item.product_id = none) :
    ∃ pid, (∃ item ∈ order.order_details, item.product_id = pid ∧
        b.productsGet pid = none) ∧
      _get_order b root oid = Except.error (GatewayError.productNotFound pid) := by
  obtain ⟨pid, hpid, herr⟩ := enrich_details_missing b root order.order_details hp
  exact ⟨pid, hpid, by simp [_get_order, ho, herr]⟩

/-- An orders store holding an order whose line references a product
that is no longer in the catalog. -/
def orphanStore : OrdersStore :=
  ⟨3, [(2, [DetailRecord.mk 1 "gone" "1.00" 1 none none])]⟩

/-- Backend over the sample catalog and the orphan store. -/
def orphanBackend : Backend :=
  mkBackend [sampleProduct] orphanStore

/-- The raw order stored in `orphanStore` under id 2. -/
def orphanOrderRecord : OrderRecord :=
  ⟨2, [DetailRecord.mk 1 "gone" "1.00" 1 none none]⟩

/-- Witness for C4 at a concrete backend and order. -/
theorem get_order_missing_product_fails_witness :
    ∃ pid, (∃ item ∈ orphanOrderRecord.order_details, item.product_id = pid ∧
        orphanBackend.productsGet pid = none) ∧
      _get_order orphanBackend "http://img" 2 =
        Except.error (GatewayError.productNotFound pid) :=
  get_order_missing_product_fails orphanBackend "http://img" 2 orphanOrderRecord
    (by decide) (by decide)

/-- C5: every successful order-listing response is the count/data
wrapper with `count` equal to the number of elements of `data`, never a
bare array (for 0, 1 or N elements alike). -/
theorem list_orders_count_matches (b : Backend) (p pp : Option String)
    (calls : List Call) (resp : SerializedOrders)
    (h : list_orders b p pp = (calls, Except.ok resp)) :
    ∃ ds, resp = SerializedOrders.wrapped ds.length (DumpedData.many ds) := by
  unfold list_orders at h
  cases hp1 : argIntDefault p 1 with
  | none => simp [hp1, Prod.ext_iff] at h
  | some page =>
    cases hp2 : argIntDefault pp 10 with
    | none => simp [hp1, hp2, Prod.ext_iff] at h
    | some size =>
      simp only [hp1, hp2] at h
      have h2 : list_orders_body b page size = Except.ok resp := congrArg Prod.snd h
      unfold list_orders_body at h2
      cases hd : GetOrderSchema_dumps_many (b.ordersListOrders page size) with
      | none => simp [hd] at h2
      | some r =>
        simp only [hd, Except.ok.injEq] at h2
        subst h2
        obtain ⟨ds, hds, hr⟩ := Option.map_eq_some'.mp hd
        exact ⟨ds, by rw [← hr]; simp [wrap_with_count, pyLen]⟩

/-- The serialized body of the sample listing response. -/
def sampleListedOrder : DumpedOrder :=
  ⟨1, [⟨1, 2, "p1", none, "9.99", none⟩]⟩

/-- Witness for C5 at a concrete backend and request. -/
theorem list_orders_count_matches_witness :
    ∃ ds, SerializedOrders.wrapped 1 (DumpedData.many [sampleListedOrder]) =
      SerializedOrders.wrapped ds.length (DumpedData.many ds) :=
  list_orders_count_matches sampleBackend none none [Call.ordersListOrders 1 10]
    (SerializedOrders.wrapped 1 (DumpedData.many [sampleListedOrder])) rfl

/-- C10: a successful single-order retrieval is never wrapped in the
count/data record: the serialized response is the bare enriched order
(`wrap_with_count` only wraps when `many` is set). -/
theorem get_order_response_bare (b : Backend) (root : String) (oid : Int)
    (resp : SerializedOrders) (h : get_order b root oid = Except.ok resp) :
    (∃ d, resp = SerializedOrders.bare (DumpedData.one d)) ∧
      ∀ c dd, resp ≠ SerializedOrders.wrapped c dd := by
  unfold get_order at h
  cases hgo : _get_order b root oid with
  | error e => simp [hgo] at h
  | ok order =>
    cases hd : GetOrderSchema_dumps order with
    | none => simp [hgo, hd] at h
    | some r =>
      simp only [hgo, hd, Except.ok.injEq] at h
      subst h
      obtain ⟨d, hdd, hr⟩ := Option.map_eq_some'.mp hd
      constructor
      · exact ⟨d, by rw [← hr]; simp [wrap_with_count]⟩
      · intro c dd hcontra
        rw [← hr] at hcontra
        simp [wrap_with_count] at hcontra

/-- The enriched, dumped form of the sample order. -/
def sampleDumpedOrder : DumpedOrder :=
  ⟨1, [⟨1, 2, "p1", some "http://img/p1.jpg", "9.99", some sampleProduct⟩]⟩

/-- Witness for C10 at a concrete backend and order. -/
theorem get_order_response_bare_witness :
    (∃ d, SerializedOrders.bare (DumpedData.one sampleDumpedOrder) =
        SerializedOrders.bare (DumpedData.one d)) ∧
      ∀ c dd, SerializedOrders.bare (DumpedData.one sampleDumpedOrder) ≠
        SerializedOrders.wrapped c dd :=
  get_order_response_bare sampleBackend "http://img" 1
    (SerializedOrders.bare (DumpedData.one sampleDumpedOrder)) rfl

/-- C8: updating a product with a body holding only `title` leaves every
other field of that product unchanged and every other product untouched,
and fails with the not-found error when no product has the routed id. -/
theorem update_product_only_title (store : List Product) (pid t : String) :
    ((∃ p ∈ store, p.id = pid) →
      update_product store pid (onlyTitle t) =
        Except.ok (store.map fun q => if q.id = pid then { q with title := t } else q)) ∧
    ((∀ p ∈ store, p.id ≠ pid) →
      update_product store pid (onlyTitle t) =
        Except.error (GatewayError.productNotFound pid)) := by
  constructor
  · intro h
    have hany : (store.any fun p => p.id = pid) = true := by
      obtain ⟨p, hp, hpid⟩ := h
      simp only [List.any_eq_true, decide_eq_true_eq]
      exact ⟨p, hp, hpid⟩
    have hfun : (fun q => if q.id = pid then applyUpdate q (onlyTitle t) else q) =
        (fun q : Product => if q.id = pid then { q with title := t } else q) := by
      funext q
      by_cases hq : q.id = pid <;> simp [hq, applyUpdate, onlyTitle]
    simp [update_product, products_update, hany, hfun]
  · intro h
    have hany : (store.any fun p => p.id = pid) = false := by
      simp only [List.any_eq_false, decide_eq_true_eq]
      exact h
    simp [update_product, products_update, hany]

/-- A second catalog entry, untouched by the witness update. -/
def otherProduct : Product :=
  ⟨"p2", "The Enigma", 7, 3, 8⟩

/-- Witness for C8 at a concrete catalog. -/
theorem update_product_only_title_witness :
    update_product [sampleProduct, otherProduct] "p1" (onlyTitle "New") =
      Except.ok ([sampleProduct, otherProduct].map fun q =>
        if q.id = "p1" then { q with title := "New" } else q) :=
  (update_product_only_title [sampleProduct, otherProduct] "p1" "New").1 (by decide)

/-- C9 counterexample: with the non-integer page parameter `"two"` the
listing does not fall back to the default page 1 — it fails with
`ValueError` before any backend call, so the default-on-malformed part
of the claim is false on the code. -/
theorem list_orders_malformed_not_defaulted :
    list_orders sampleBackend (some "two") none =
      ([], Except.error GatewayError.valueError) ∧
    Call.ordersListOrders 1 10 ∉ (list_orders sampleBackend (some "two") none).1 :=
  ⟨rfl, by decide⟩

/-- C9 (amended): `p` and `per_page` are parsed via Python `int` with
defaults 1 and 10 applied when the parameter is absent; when both parse,
the parsed values are passed unmodified to `orders.list_orders`; a
malformed (non-integer) value raises `ValueError` with no backend call
issued. -/
theorem list_orders_pagination :
    (∀ (b : Backend) (p pp : Option String) (page size : Int),
        argIntDefault p 1 = some page → argIntDefault pp 10 = some size →
        list_orders b p pp =
          ([Call.ordersListOrders page size], list_orders_body b page size)) ∧
    argIntDefault none 1 = some 1 ∧ argIntDefault none 10 = some 10 ∧
    (∀ (b : Backend) (pp : Option String) (s : String), pyIntOfString s = none →
        list_orders b (some s) pp = ([], Except.error GatewayError.valueError)) ∧
    (∀ (b : Backend) (p : Option String) (page : Int) (s : String),
        argIntDefault p 1 = some page → pyIntOfString s = none →
        list_orders b p (some s) = ([], Except.error GatewayError.valueError)) := by
  refine ⟨?_, rfl, rfl, ?_, ?_⟩
  · intro b p pp page size h1 h2
    simp [list_orders, h1, h2]
  · intro b pp s hs
    simp [list_orders, argIntDefault, hs]
  · intro b p page s h1 hs
    unfold list_orders
    rw [h1]
    simp [argIntDefault, hs]

/-- Witness for the amended C9 at concrete query parameters. -/
theorem list_orders_pagination_witness :
    list_orders sampleBackend (some "2") (some "5") =
      ([Call.ordersListOrders 2 5], list_orders_body sampleBackend 2 5) :=
  list_orders_pagination.1 sampleBackend (some "2") (some "5") 2 5 (by decide) (by decide)

/-- The wire line `p1 / "9.99" / 2` of the round-trip claim. -/
def p1WireLine : CreateOrderDetailWire :=
  ⟨"p1", "9.99", 2⟩

/-- The loaded form of `[p1WireLine]`: the price is the exact decimal
9.99 (coefficient 999, exponent -2). -/
def p1LoadedOrder : CreateOrderData :=
  ⟨[⟨"p1", ⟨false, 999, -2⟩, 2⟩]⟩

/-- C6: round-trip.  Loading the single line `p1 / "9.99" / 2` through
the create schema, creating the order against a catalog in which "p1"
is the record `P` (using the spec-modelled orders store starting empty),
then retrieving order 0, yields one line with quantity 2, price exactly
the string "9.99" (the decimal survives both schema passes with exact
precision), the enriched product equal to `P`, and the derived image
URL. -/
theorem order_roundtrip (P : Product) (root : String) (hP : P.id = "p1") :
    CreateOrderSchema_load [p1WireLine] = some p1LoadedOrder ∧
    CreateOrderSchema_dump p1LoadedOrder = [p1WireLine] ∧
    (_create_order (mkBackend [P] ⟨0, []⟩) p1LoadedOrder).2 = Except.ok 0 ∧
    ∃ d, get_order (mkBackend [P]
          (OrdersStore.create ⟨0, []⟩ (CreateOrderSchema_dump p1LoadedOrder)).1) root 0 =
        Except.ok (SerializedOrders.bare (DumpedData.one d)) ∧
      d.order_details.length = 1 ∧
      ∀ line ∈ d.order_details,
        line.quantity = 2 ∧ line.price = "9.99" ∧ line.product = some P ∧
          line.image = some (root ++ "/" ++ "p1" ++ ".jpg") := by
  have hany : ([P].any fun p => p.id = "p1") = true := by simp [hP]
  have hfind : ([P].find? fun p => p.id = "p1") = some P := by simp [List.find?, hP]
  have hs1 : (OrdersStore.create ⟨0, []⟩ (CreateOrderSchema_dump p1LoadedOrder)).1 =
      ⟨1, [(0, [⟨0, "p1", "9.99", 2, none, none⟩])]⟩ := by decide
  have hparse : parseDec "9.99" = some ⟨false, 999, -2⟩ := rfl
  have hrender : renderDec ⟨false, 999, -2⟩ = "9.99" := rfl
  refine ⟨by decide, by decide, ?_, ?_⟩
  · simp [_create_order, check_order_products, mkBackend, hany, hP, p1LoadedOrder,
      OrdersStore.create]
  · rw [hs1]
    refine ⟨⟨0, [⟨0, 2, "p1", some (root ++ "/" ++ "p1" ++ ".jpg"), "9.99", some P⟩]⟩,
      ?_, rfl, ?_⟩
    · simp [get_order, _get_order, mkBackend, OrdersStore.getOrder, List.lookup,
        enrich_details, hfind, hP, GetOrderSchema_dumps, GetOrderSchema_dump_fields,
        GetOrderDetailSchema_dump, List.mapM, List.mapM.loop, wrap_with_count,
        hparse, hrender]
    · simp

/-- Witness for C6 at the sample product and a concrete image root. -/
theorem order_roundtrip_witness :
    CreateOrderSchema_load [p1WireLine] = some p1LoadedOrder ∧
    CreateOrderSchema_dump p1LoadedOrder = [p1WireLine] ∧
    (_create_order (mkBackend [sampleProduct] ⟨0, []⟩) p1LoadedOrder).2 = Except.ok 0 ∧
    ∃ d, get_order (mkBackend [sampleProduct]
          (OrdersStore.create ⟨0, []⟩ (CreateOrderSchema_dump p1LoadedOrder)).1)
          "http://img" 0 =
        Except.ok (SerializedOrders.bare (DumpedData.one d)) ∧
      d.order_details.length = 1 ∧
      ∀ line ∈ d.order_details,
        line.quantity = 2 ∧ line.price = "9.99" ∧ line.product = some sampleProduct ∧
          line.image = some ("http://img" ++ "/" ++ "p1" ++ ".jpg") :=
  order_roundtrip sampleProduct "http://img" rfl
